import Mathlib

/-
Verification of the scoring and selection logic of the BTTS predictor
(src/btts_predictor.py), shallowly embedded in Lean 4.

Modelling conventions:
* Python floats are modelled by exact rationals (ℚ); every statistic the
  program compares against a cutpoint is a short decimal, so the tier
  comparisons of the source are preserved exactly.
* A nested statistics field (for instance
  home_stats.get("goals", ...).get("for", ...).get("average", ...).get("home", 0))
  is modelled by `FieldVal`: `missing` is an absent key anywhere along the
  chain (the chained .get calls yield the default 0), `nullVal` is a falsy
  present value (None or the empty string) that the `or 0` guard turns into
  0, `numVal q` is a numeric value or numeric string that float() converts,
  and `malformed` is a value on which float() — or a .get on a non-dict —
  raises, which the surrounding try/except turns into a skipped factor.
* A falsy statistics object (None, as returned by get_team_stats on
  upstream failure, or an empty dict) is `Option.none`.
* A kickoff timestamp is the value datetime.fromisoformat would produce
  from the stored ISO string, counted in seconds; `none` models a string
  on which parsing raises (the source catches that and skips the rule).
-/

inductive FieldVal where
  | missing
  | nullVal
  | numVal (q : ℚ)
  | malformed
deriving DecidableEq

/-- Result of `float(x or 0)` on a statistics field: `some` the numeric value,
`none` when the conversion raises and the enclosing try/except fires. -/
def parseField : FieldVal → Option ℚ
  | .missing => some 0
  | .nullVal => some 0
  | .numVal q => some q
  | .malformed => none

/-- Python's round(x, 2) (the source only displays this value; no claim
depends on the rounding direction of ties). -/
def round2 (q : ℚ) : ℚ := (round (q * 100) : ℚ) / 100

/-- HOME TEAM SCORING tier ladder (25 points), lines 239-246 of the source. -/
def homeGoalsTier (g : ℚ) : ℕ :=
  if g ≥ 1.8 then 25
  else if g ≥ 1.5 then 20
  else if g ≥ 1.2 then 15
  else if g ≥ 1.0 then 10
  else 0

/-- AWAY TEAM SCORING tier ladder (25 points), lines 255-262 of the source. -/
def awayGoalsTier (g : ℚ) : ℕ :=
  if g ≥ 1.5 then 25
  else if g ≥ 1.2 then 20
  else if g ≥ 1.0 then 15
  else if g ≥ 0.8 then 10
  else 0

/-- HOME TEAM CONCEDING tier ladder (25 points), lines 271-278 of the source. -/
def homeConcededTier (g : ℚ) : ℕ :=
  if g ≥ 1.5 then 25
  else if g ≥ 1.2 then 20
  else if g ≥ 1.0 then 15
  else if g ≥ 0.8 then 10
  else 0

/-- AWAY TEAM CONCEDING tier ladder (25 points), lines 287-294 of the source. -/
def awayConcededTier (g : ℚ) : ℕ :=
  if g ≥ 1.5 then 25
  else if g ≥ 1.2 then 20
  else if g ≥ 1.0 then 15
  else if g ≥ 0.8 then 10
  else 0

/-- One try/except factor block of calculate_btts_score: parse the field,
and on success record the rounded average and award the tier points; on
an exception contribute 0 points and leave the detail at its initial value. -/
def factorEval (v : FieldVal) (tier : ℚ → ℕ) : ℕ × Option ℚ :=
  match parseField v with
  | some q => (tier q, some (round2 q))
  | none => (0, none)

/-- The four statistics fields of a team-statistics API response that
calculate_btts_score reads. -/
structure TeamStats where
  goals_for_avg_home : FieldVal
  goals_for_avg_away : FieldVal
  goals_against_avg_home : FieldVal
  goals_against_avg_away : FieldVal
deriving DecidableEq

/-- The `details` dict of calculate_btts_score; `none` is the initial
string value "N/A", `some q` a recorded rounded average. -/
structure ScoreDetails where
  home_goals_avg : Option ℚ
  away_goals_avg : Option ℚ
  home_conceded_avg : Option ℚ
  away_conceded_avg : Option ℚ
deriving DecidableEq

/-- calculate_btts_score (source lines 213-298): returns 0 with all
details "N/A" when either stats object is falsy, otherwise sums the four
independently fault-tolerant 25-point factors. The ℕ codomain records
that the score starts at 0 and only ever has non-negative points added. -/
def calculate_btts_score : Option TeamStats → Option TeamStats → ℕ × ScoreDetails
  | some hs, some aw =>
    let f1 := factorEval hs.goals_for_avg_home homeGoalsTier
    let f2 := factorEval aw.goals_for_avg_away awayGoalsTier
    let f3 := factorEval hs.goals_against_avg_home homeConcededTier
    let f4 := factorEval aw.goals_against_avg_away awayConcededTier
    (f1.1 + f2.1 + f3.1 + f4.1, ⟨f1.2, f2.2, f3.2, f4.2⟩)
  | _, _ => (0, ⟨none, none, none, none⟩)

/-- The parts of a fixture record that the analysis stage reads, together
with the statistics the two get_team_stats calls produced for it. -/
structure Fixture where
  home_stats : Option TeamStats
  away_stats : Option TeamStats
  home_team : String
  away_team : String
  league : String
  kickoff : Option ℚ
deriving DecidableEq

/-- One entry of the `analyzed` list built in analyze_matches
(source lines 329-337). -/
structure AnalyzedMatch where
  fixture : Fixture
  score : ℕ
  home_team : String
  away_team : String
  league : String
  kickoff : Option ℚ
  details : ScoreDetails
deriving DecidableEq

/-- analyze_matches (source lines 300-345): score every fixture and keep
exactly those with score ≥ 50. -/
def analyze_matches (fixtures : List Fixture) : List AnalyzedMatch :=
  fixtures.filterMap fun f =>
    let sd := calculate_btts_score f.home_stats f.away_stats
    if 50 ≤ sd.1 then
      some ⟨f, sd.1, f.home_team, f.away_team, f.league, f.kickoff, sd.2⟩
    else none

/-- Stable insertion step for the descending sort: an element is placed
after every already-sorted element of strictly greater or equal score,
keeping equal-score elements in their original order — the semantics of
Python's stable list.sort(key=score, reverse=True). -/
def insertDesc (m : AnalyzedMatch) : List AnalyzedMatch → List AnalyzedMatch
  | [] => [m]
  | x :: xs => if m.score < x.score then x :: insertDesc m xs else m :: x :: xs

/-- analyzed_matches.sort(key=lambda x: x["score"], reverse=True)
(source line 353), as a stable descending insertion sort. -/
def sortByScoreDesc : List AnalyzedMatch → List AnalyzedMatch
  | [] => []
  | x :: xs => insertDesc x (sortByScoreDesc xs)

/-- Rule 2 of select_best_picks (source lines 362-367): skip a candidate
in the same league as the first pick unless its score beats the first
pick's score by at least 10. Only picks[0] is consulted. The subtraction
is Python int subtraction, hence ℤ. -/
def leagueRuleSkips (picks : List AnalyzedMatch) (m : AnalyzedMatch) : Bool :=
  match picks with
  | [] => false
  | p0 :: _ => m.league = p0.league ∧ (m.score : ℤ) - (p0.score : ℤ) < 10

/-- Rule 3 of select_best_picks (source lines 369-379): skip a candidate
whose kickoff is less than 2 hours from the first pick's kickoff; if
either ISO timestamp fails to parse the except branch passes and the
candidate is not skipped. -/
def timeRuleSkips (picks : List AnalyzedMatch) (m : AnalyzedMatch) : Bool :=
  match picks with
  | [] => false
  | p0 :: _ =>
    match p0.kickoff, m.kickoff with
    | some t1, some t2 => |t2 - t1| / 3600 < 2
    | _, _ => false

/-- The greedy loop of select_best_picks (source lines 357-384): walk the
sorted candidates, apply Rules 1-3, append survivors, stop at 2 picks. -/
def pickLoop : List AnalyzedMatch → List AnalyzedMatch → List AnalyzedMatch
  | [], picks => picks
  | m :: rest, picks =>
    if m.score < 50 then pickLoop rest picks
    else if leagueRuleSkips picks m then pickLoop rest picks
    else if timeRuleSkips picks m then pickLoop rest picks
    else if (picks ++ [m]).length = 2 then picks ++ [m]
    else pickLoop rest (picks ++ [m])

/-- select_best_picks (source lines 347-392): sort in place, run the
greedy diversity loop, then apply the fallbacks of lines 386-390 (note
they read the in-place-sorted list). -/
def select_best_picks (analyzed : List AnalyzedMatch) : List AnalyzedMatch :=
  match analyzed with
  | [] => []
  | _ :: _ =>
    let sorted := sortByScoreDesc analyzed
    let picks := pickLoop sorted []
    if picks.length < 2 ∧ 2 ≤ sorted.length then sorted.take 2
    else if picks.length < 1 ∧ 1 ≤ sorted.length then sorted.take 1
    else picks

/-- Message sent when get_today_fixtures produced no fixtures
(source line 423). -/
def no_fixtures_msg : String :=
  "❌ No upcoming daytime fixtures found in target leagues today."

/-- Message sent when no match reached the score-50 threshold
(source line 432). -/
def no_qualifiers_msg : String :=
  "❌ No matches met the minimum BTTS confidence threshold today.\n\nTry again tomorrow! 🍀"

/-- Message sent when the pick selector returned nothing
(source line 441). -/
def no_picks_msg : String :=
  "❌ Could not find suitable BTTS picks today.\n\nTry again tomorrow! 🍀"

/-- Header of the predictions message (source lines 451-458), the payload
sent when picks exist. -/
def picks_header : String :=
  "🏆 <b>BTTS DAILY PREDICTIONS</b> 🏆"

/-- One pick block of the predictions message (source lines 461-477),
reduced to the fields the selection logic guarantees. -/
def pickLine (p : AnalyzedMatch) : String :=
  p.home_team ++ " vs " ++ p.away_team ++ " (" ++ toString p.score ++ "/100)"

/-- The reporting decision of main (source lines 420-487): which message
the run hands to the notification sink. Every branch returns a message
normally — a run with nothing to report is not an error path. -/
def mainMessage (fixtures : List Fixture) : String :=
  if fixtures.length = 0 then no_fixtures_msg
  else
    let analyzed := analyze_matches fixtures
    if analyzed.length = 0 then no_qualifiers_msg
    else
      let picks := select_best_picks analyzed
      if picks.length = 0 then no_picks_msg
      else (picks.map pickLine).foldl (fun acc s => acc ++ "\n" ++ s) picks_header

/-- A candidate with the given score, league and kickoff (in seconds),
used to instantiate the selection theorems on concrete inputs. -/
def mkAnalyzed (score : ℕ) (league : String) (kickoff : ℚ) : AnalyzedMatch :=
  ⟨⟨none, none, "H", "A", league, some kickoff⟩, score, "H", "A", league,
    some kickoff, ⟨none, none, none, none⟩⟩

/-- A statistics record whose four averages are all 2.0. -/
def fullStats : TeamStats :=
  ⟨.numVal 2, .numVal 2, .numVal 2, .numVal 2⟩

/-- A fixture whose two statistics lookups both succeeded with fullStats. -/
def sampleFixture : Fixture :=
  ⟨some fullStats, some fullStats, "H", "A", "L", some 0⟩

/-- A fixture whose two statistics lookups both failed. -/
def emptyFixture : Fixture :=
  ⟨none, none, "H", "A", "L", none⟩

-- ===== Helper lemmas about the stable descending sort =====

lemma mem_insertDesc {m x : AnalyzedMatch} {l : List AnalyzedMatch} :
    x ∈ insertDesc m l ↔ x = m ∨ x ∈ l := by
  induction l with
  | nil => simp [insertDesc]
  | cons a as ih =>
    simp only [insertDesc]
    split
    · simp only [List.mem_cons, ih]
      tauto
    · simp only [List.mem_cons]

lemma pairwise_insertDesc {m : AnalyzedMatch} {l : List AnalyzedMatch}
    (h : l.Pairwise (fun a b => b.score ≤ a.score)) :
    (insertDesc m l).Pairwise (fun a b => b.score ≤ a.score) := by
  induction l with
  | nil => simp [insertDesc]
  | cons a as ih =>
    rw [List.pairwise_cons] at h
    obtain ⟨ha, has⟩ := h
    simp only [insertDesc]
    split
    case isTrue hlt =>
      rw [List.pairwise_cons]
      refine ⟨?_, ih has⟩
      intro y hy
      rcases mem_insertDesc.mp hy with rfl | hy
      · exact le_of_lt hlt
      · exact ha y hy
    case isFalse hge =>
      rw [List.pairwise_cons]
      refine ⟨?_, List.pairwise_cons.mpr ⟨ha, has⟩⟩
      intro y hy
      rcases List.mem_cons.mp hy with rfl | hy
      · exact le_of_not_lt hge
      · exact le_trans (ha y hy) (le_of_not_lt hge)

lemma sortByScoreDesc_pairwise (l : List AnalyzedMatch) :
    (sortByScoreDesc l).Pairwise (fun a b => b.score ≤ a.score) := by
  induction l with
  | nil => simp [sortByScoreDesc]
  | cons a as ih => exact pairwise_insertDesc ih

lemma mem_sortByScoreDesc {x : AnalyzedMatch} {l : List AnalyzedMatch} :
    x ∈ sortByScoreDesc l ↔ x ∈ l := by
  induction l with
  | nil => simp [sortByScoreDesc]
  | cons a as ih =>
    simp only [sortByScoreDesc, mem_insertDesc, List.mem_cons, ih]

lemma length_insertDesc (m : AnalyzedMatch) (l : List AnalyzedMatch) :
    (insertDesc m l).length = l.length + 1 := by
  induction l with
  | nil => rfl
  | cons a as ih =>
    simp only [insertDesc]
    split
    · simp [ih]
    · simp

lemma length_sortByScoreDesc (l : List AnalyzedMatch) :
    (sortByScoreDesc l).length = l.length := by
  induction l with
  | nil => rfl
  | cons a as ih => simp [sortByScoreDesc, length_insertDesc, ih]

-- ===== Helper lemmas about the greedy selection loop =====

lemma pickLoop_eq_append (cands : List AnalyzedMatch) :
    ∀ picks, ∃ s, List.Sublist s cands ∧ pickLoop cands picks = picks ++ s := by
  induction cands with
  | nil => exact fun picks => ⟨[], List.nil_sublist [], by simp [pickLoop]⟩
  | cons m rest ih =>
    intro picks
    simp only [pickLoop]
    split
    · obtain ⟨s, hs, he⟩ := ih picks
      exact ⟨s, hs.cons m, he⟩
    · split
      · obtain ⟨s, hs, he⟩ := ih picks
        exact ⟨s, hs.cons m, he⟩
      · split
        · obtain ⟨s, hs, he⟩ := ih picks
          exact ⟨s, hs.cons m, he⟩
        · split
          · exact ⟨[m], (List.nil_sublist rest).cons₂ m, rfl⟩
          · obtain ⟨s, hs, he⟩ := ih (picks ++ [m])
            exact ⟨m :: s, hs.cons₂ m, by rw [he, List.append_assoc]; rfl⟩

lemma pickLoop_length (cands : List AnalyzedMatch) :
    ∀ picks, picks.length < 2 → (pickLoop cands picks).length ≤ 2 := by
  induction cands with
  | nil => exact fun picks h => le_of_lt h
  | cons m rest ih =>
    intro picks h
    simp only [pickLoop]
    split
    · exact ih picks h
    · split
      · exact ih picks h
      · split
        · exact ih picks h
        · split
          case isTrue h2 => omega
          case isFalse h2 =>
            refine ih (picks ++ [m]) ?_
            rw [List.length_append] at h2 ⊢
            simp only [List.length_singleton] at h2 ⊢
            omega

lemma select_best_picks_subset {l : List AnalyzedMatch} {m : AnalyzedMatch}
    (h : m ∈ select_best_picks l) : m ∈ l := by
  cases l with
  | nil => simp [select_best_picks] at h
  | cons a as =>
    simp only [select_best_picks] at h
    split at h
    · exact mem_sortByScoreDesc.mp (List.take_subset 2 _ h)
    · split at h
      · exact mem_sortByScoreDesc.mp (List.take_subset 1 _ h)
      · obtain ⟨s, hs, he⟩ := pickLoop_eq_append (sortByScoreDesc (a :: as)) []
        rw [he, List.nil_append] at h
        exact mem_sortByScoreDesc.mp (hs.subset h)

-- ===== Helper lemmas about the tier ladders =====

lemma homeGoalsTier_le_25 (g : ℚ) : homeGoalsTier g ≤ 25 := by
  unfold homeGoalsTier; split_ifs <;> omega

lemma awayGoalsTier_le_25 (g : ℚ) : awayGoalsTier g ≤ 25 := by
  unfold awayGoalsTier; split_ifs <;> omega

lemma homeConcededTier_le_25 (g : ℚ) : homeConcededTier g ≤ 25 := by
  unfold homeConcededTier; split_ifs <;> omega

lemma awayConcededTier_le_25 (g : ℚ) : awayConcededTier g ≤ 25 := by
  unfold awayConcededTier; split_ifs <;> omega

lemma factorEval_fst_le {v : FieldVal} {t : ℚ → ℕ} (h : ∀ g, t g ≤ 25) :
    (factorEval v t).1 ≤ 25 := by
  unfold factorEval
  cases hp : parseField v
  · simp
  · simpa using h _

-- ===== Claim theorems =====

/-- Claim C1: for every pair of home and away team-statistics inputs,
including absent, empty, or malformed ones, calculate_btts_score returns
a score that is a non-negative integer (ℕ by construction) at most 100,
the maximum attainable sum of the four 25-point factors. -/
theorem calculate_btts_score_le_100 (hs aw : Option TeamStats) :
    (calculate_btts_score hs aw).1 ≤ 100 := by
  cases hs with
  | none => simp [calculate_btts_score]
  | some h =>
    cases aw with
    | none => simp [calculate_btts_score]
    | some a =>
      have h1 := factorEval_fst_le (v := h.goals_for_avg_home) homeGoalsTier_le_25
      have h2 := factorEval_fst_le (v := a.goals_for_avg_away) awayGoalsTier_le_25
      have h3 := factorEval_fst_le (v := h.goals_against_avg_home) homeConcededTier_le_25
      have h4 := factorEval_fst_le (v := a.goals_against_avg_away) awayConcededTier_le_25
      simp only [calculate_btts_score]
      omega

/-- Claim C2: the sub-scores are step functions on the exact spec
cutpoints — home scoring average at least 1.8 earns the maximum factor
weight 25, at least 1.5 earns 20, then 1.2 earns 15 and 1.0 earns 10,
else 0; the away-scoring ladder has the same shape with the strictly
lower cutpoints 1.5/1.2/1.0/0.8. -/
theorem tier_cutpoints (g : ℚ) :
    ((1.8:ℚ) ≤ g → homeGoalsTier g = 25) ∧
    ((1.5:ℚ) ≤ g → g < 1.8 → homeGoalsTier g = 20) ∧
    ((1.2:ℚ) ≤ g → g < 1.5 → homeGoalsTier g = 15) ∧
    ((1:ℚ) ≤ g → g < 1.2 → homeGoalsTier g = 10) ∧
    (g < 1 → homeGoalsTier g = 0) ∧
    ((1.5:ℚ) ≤ g → awayGoalsTier g = 25) ∧
    ((1.2:ℚ) ≤ g → g < 1.5 → awayGoalsTier g = 20) ∧
    ((1:ℚ) ≤ g → g < 1.2 → awayGoalsTier g = 15) ∧
    ((0.8:ℚ) ≤ g → g < 1 → awayGoalsTier g = 10) ∧
    (g < 0.8 → awayGoalsTier g = 0) ∧
    (0.8:ℚ) < 1 ∧ (1:ℚ) < 1.2 ∧ (1.2:ℚ) < 1.5 ∧ (1.5:ℚ) < 1.8 := by
  unfold homeGoalsTier awayGoalsTier
  refine ⟨?_, ?_, ?_, ?_, ?_, ?_, ?_, ?_, ?_, ?_, by norm_num, by norm_num,
    by norm_num, by norm_num⟩ <;>
    intros <;> split_ifs <;> first | rfl | (exfalso; norm_num at *; linarith)

/-- Witness for C2 at the concrete average 2.0. -/
theorem tier_cutpoints_witness : (1.8:ℚ) ≤ 2 ∧ homeGoalsTier 2 = 25 :=
  ⟨by norm_num, (tier_cutpoints 2).1 (by norm_num)⟩

/-- Claim C3: for every input list of scored fixtures, select_best_picks
returns at most K=2 entries, and the returned entries are ordered by
score descending. -/
theorem select_best_picks_len_le_two_and_sorted (l : List AnalyzedMatch) :
    (select_best_picks l).length ≤ 2 ∧
    (select_best_picks l).Pairwise (fun a b => b.score ≤ a.score) := by
  cases l with
  | nil => simp [select_best_picks]
  | cons a as =>
    have hsp := sortByScoreDesc_pairwise (a :: as)
    simp only [select_best_picks]
    split
    · exact ⟨List.length_take_le 2 _,
        List.Pairwise.sublist (List.take_sublist 2 _) hsp⟩
    · split
      · exact ⟨le_trans (List.length_take_le 1 _) (by norm_num),
          List.Pairwise.sublist (List.take_sublist 1 _) hsp⟩
      · obtain ⟨s, hs, he⟩ := pickLoop_eq_append (sortByScoreDesc (a :: as)) []
        rw [he, List.nil_append]
        exact ⟨by
            have := pickLoop_length (sortByScoreDesc (a :: as)) [] (by norm_num)
            rwa [he, List.nil_append] at this,
          List.Pairwise.sublist hs hsp⟩

/-- Claim C4: under the same-competition rule with margin 10 (kickoffs far
enough apart to pass the time rule), with scores 80 and 68 in the same
competition both may be selected — in the code this happens through the
top-2 fallback, since after the descending sort the margin test
match.score - picks[0].score ≥ 10 can never succeed — while with scores
80 and 75 the second is skipped in favor of the next distinct-competition
candidate. -/
theorem same_competition_scenarios :
    select_best_picks [mkAnalyzed 80 "A" 0, mkAnalyzed 68 "A" (4*3600)] =
      [mkAnalyzed 80 "A" 0, mkAnalyzed 68 "A" (4*3600)] ∧
    select_best_picks
        [mkAnalyzed 80 "A" 0, mkAnalyzed 75 "A" (4*3600), mkAnalyzed 60 "B" (8*3600)] =
      [mkAnalyzed 80 "A" 0, mkAnalyzed 60 "B" (8*3600)] := by
  constructor <;>
    norm_num [select_best_picks, sortByScoreDesc, insertDesc, pickLoop,
      leagueRuleSkips, timeRuleSkips, mkAnalyzed,
      show ("B":String) ≠ "A" by decide, show ("C":String) ≠ "A" by decide]

/-- Counterexample to claim C5: two qualifying fixtures in different
competitions 90 minutes apart — the claim says the second is skipped and
not returned, but with these two candidates alone the top-2 fallback of
lines 386-388 returns both. -/
theorem time_rule_fallback_counterexample :
    select_best_picks [mkAnalyzed 80 "A" 0, mkAnalyzed 70 "B" (90*60)] =
      [mkAnalyzed 80 "A" 0, mkAnalyzed 70 "B" (90*60)] ∧
    mkAnalyzed 70 "B" (90*60) ∈
      select_best_picks [mkAnalyzed 80 "A" 0, mkAnalyzed 70 "B" (90*60)] := by
  constructor <;>
    norm_num [select_best_picks, sortByScoreDesc, insertDesc, pickLoop,
      leagueRuleSkips, timeRuleSkips, mkAnalyzed,
      show ("B":String) ≠ "A" by decide, show ("C":String) ≠ "A" by decide]

/-- Claim C5 as amended: a qualifying candidate 90 minutes from the first
pick is skipped by the greedy time-proximity pass, and is excluded from
the final result when another qualifying distinct-competition candidate
at least 2 hours away fills the second slot; when no such candidate
exists the top-2 fallback returns it anyway; two fixtures 3 hours apart
may both be selected. -/
theorem time_rule_scenarios :
    select_best_picks
        [mkAnalyzed 80 "A" 0, mkAnalyzed 70 "B" (90*60), mkAnalyzed 60 "C" (3*3600)] =
      [mkAnalyzed 80 "A" 0, mkAnalyzed 60 "C" (3*3600)] ∧
    mkAnalyzed 70 "B" (90*60) ∉
      select_best_picks
        [mkAnalyzed 80 "A" 0, mkAnalyzed 70 "B" (90*60), mkAnalyzed 60 "C" (3*3600)] ∧
    select_best_picks [mkAnalyzed 80 "A" 0, mkAnalyzed 70 "B" (3*3600)] =
      [mkAnalyzed 80 "A" 0, mkAnalyzed 70 "B" (3*3600)] := by
  refine ⟨?_, ?_, ?_⟩ <;>
    norm_num [select_best_picks, sortByScoreDesc, insertDesc, pickLoop,
      leagueRuleSkips, timeRuleSkips, mkAnalyzed,
      show ("B":String) ≠ "A" by decide, show ("C":String) ≠ "A" by decide]

/-- Counterexample to claim C6: with candidates scoring 60 and 40 only one
qualifies (the threshold is 50), so the claim demands a single returned
pick, but the top-2 fallback of lines 386-388 ignores the qualification
rule and returns both. -/
theorem fallback_threshold_counterexample :
    select_best_picks [mkAnalyzed 60 "A" 0, mkAnalyzed 40 "B" (4*3600)] =
      [mkAnalyzed 60 "A" 0, mkAnalyzed 40 "B" (4*3600)] ∧
    (mkAnalyzed 40 "B" (4*3600)).score < 50 := by
  constructor <;>
    norm_num [select_best_picks, sortByScoreDesc, insertDesc, pickLoop,
      leagueRuleSkips, timeRuleSkips, mkAnalyzed,
      show ("B":String) ≠ "A" by decide, show ("C":String) ≠ "A" by decide]

/-- Claim C6 as amended: on inputs whose candidates all qualify (score at
least 50, as analyze_matches guarantees), if the greedy diversity pass
yields fewer than 2 picks while at least 2 candidates exist,
select_best_picks discards the diversity constraints and returns the top
2 by score; with fewer than 2 candidates it returns all of them,
possibly none. On inputs with non-qualifying candidates the fallback can
return candidates below the threshold. -/
theorem fallback_amended (l : List AnalyzedMatch) (hq : ∀ m ∈ l, 50 ≤ m.score) :
    ((pickLoop (sortByScoreDesc l) []).length < 2 → 2 ≤ l.length →
      select_best_picks l = (sortByScoreDesc l).take 2) ∧
    (l.length < 2 → select_best_picks l = l) := by
  constructor
  · intro hlt hlen
    cases l with
    | nil => simp at hlen
    | cons a as =>
      have h2 : 2 ≤ (sortByScoreDesc (a :: as)).length := by
        rw [length_sortByScoreDesc]; exact hlen
      simp only [select_best_picks]
      rw [if_pos ⟨hlt, h2⟩]
  · intro hlen
    cases l with
    | nil => rfl
    | cons a as =>
      cases as with
      | nil =>
        have h50 : ¬ (a.score < 50) := not_lt.mpr (hq a (by simp))
        simp [select_best_picks, sortByScoreDesc, insertDesc, pickLoop,
          leagueRuleSkips, timeRuleSkips, h50]
      | cons b bs => simp at hlen; omega

/-- Witness for the amended C6: two qualifying same-league candidates 1
hour apart block the greedy pass, and the fallback returns the top 2. -/
theorem fallback_amended_witness :
    (∀ m ∈ [mkAnalyzed 60 "A" 0, mkAnalyzed 55 "A" 3600], 50 ≤ m.score) ∧
    (pickLoop (sortByScoreDesc [mkAnalyzed 60 "A" 0, mkAnalyzed 55 "A" 3600]) []).length < 2 ∧
    select_best_picks [mkAnalyzed 60 "A" 0, mkAnalyzed 55 "A" 3600] =
      (sortByScoreDesc [mkAnalyzed 60 "A" 0, mkAnalyzed 55 "A" 3600]).take 2 :=
  ⟨by decide, by decide,
    (fallback_amended [mkAnalyzed 60 "A" 0, mkAnalyzed 55 "A" 3600] (by decide)).1
      (by decide) (by decide)⟩

/-- The analyzed entry that analyze_matches builds for sampleFixture. -/
def sampleAnalyzed : AnalyzedMatch :=
  ⟨sampleFixture, 100, "H", "A", "L", some 0,
    ⟨some (round2 2), some (round2 2), some (round2 2), some (round2 2)⟩⟩

/-- Claim C7: a fixture whose home and away statistics are both entirely
absent receives score 0 from calculate_btts_score, and since the
qualifying threshold is 50 such a fixture is never included in the
analyzed list nor in the final picks. -/
theorem absent_stats_never_picked :
    (calculate_btts_score none none).1 = 0 ∧
    ∀ (fs : List Fixture) (m : AnalyzedMatch),
      (m ∈ analyze_matches fs ∨ m ∈ select_best_picks (analyze_matches fs)) →
      ¬(m.fixture.home_stats = none ∧ m.fixture.away_stats = none) := by
  refine ⟨rfl, ?_⟩
  rintro fs m hm ⟨hh, ha⟩
  have hmem : m ∈ analyze_matches fs := by
    rcases hm with h | h
    · exact h
    · exact select_best_picks_subset h
  simp only [analyze_matches, List.mem_filterMap] at hmem
  obtain ⟨f, _, heq⟩ := hmem
  split at heq
  case isTrue hc =>
    have hf : m.fixture = f := by rw [← Option.some_inj.mp heq]
    rw [hf] at hh ha
    rw [hh, ha] at hc
    norm_num [calculate_btts_score] at hc
  case isFalse hc => exact Option.noConfusion heq

/-- Witness for C7: a fully populated fixture scores 100 and its analyzed
entry does not have both statistics absent. -/
theorem absent_stats_never_picked_witness :
    (sampleAnalyzed ∈ analyze_matches [sampleFixture] ∨
      sampleAnalyzed ∈ select_best_picks (analyze_matches [sampleFixture])) ∧
    ¬(sampleAnalyzed.fixture.home_stats = none ∧
      sampleAnalyzed.fixture.away_stats = none) :=
  ⟨Or.inl (by
      norm_num [analyze_matches, calculate_btts_score, factorEval, parseField,
        homeGoalsTier, awayGoalsTier, homeConcededTier, awayConcededTier,
        fullStats, sampleFixture, sampleAnalyzed]),
    absent_stats_never_picked.2 [sampleFixture] sampleAnalyzed
      (Or.inl (by
        norm_num [analyze_matches, calculate_btts_score, factorEval, parseField,
          homeGoalsTier, awayGoalsTier, homeConcededTier, awayConcededTier,
          fullStats, sampleFixture, sampleAnalyzed]))⟩

/-- Claim C8: each of the four sub-score computations is independently
fault-tolerant — when one statistics field is missing, falsy or
malformed, that factor contributes 0 while the remaining factors are
still computed and summed (totality of the Lean function mirrors that no
exception escapes the per-factor try/except blocks). The first conjunct
is the decomposition of the score into the four independent factors; the
rest evaluate it when one field at a time goes bad. -/
theorem factor_fault_tolerance (hs aw : TeamStats) (v : FieldVal)
    (hv : v = .missing ∨ v = .nullVal ∨ v = .malformed) :
    (calculate_btts_score (some hs) (some aw)).1 =
      (factorEval hs.goals_for_avg_home homeGoalsTier).1 +
      (factorEval aw.goals_for_avg_away awayGoalsTier).1 +
      (factorEval hs.goals_against_avg_home homeConcededTier).1 +
      (factorEval aw.goals_against_avg_away awayConcededTier).1 ∧
    (calculate_btts_score (some { hs with goals_for_avg_home := v }) (some aw)).1 =
      (factorEval aw.goals_for_avg_away awayGoalsTier).1 +
      (factorEval hs.goals_against_avg_home homeConcededTier).1 +
      (factorEval aw.goals_against_avg_away awayConcededTier).1 ∧
    (calculate_btts_score (some hs) (some { aw with goals_for_avg_away := v })).1 =
      (factorEval hs.goals_for_avg_home homeGoalsTier).1 +
      (factorEval hs.goals_against_avg_home homeConcededTier).1 +
      (factorEval aw.goals_against_avg_away awayConcededTier).1 ∧
    (calculate_btts_score (some { hs with goals_against_avg_home := v }) (some aw)).1 =
      (factorEval hs.goals_for_avg_home homeGoalsTier).1 +
      (factorEval aw.goals_for_avg_away awayGoalsTier).1 +
      (factorEval aw.goals_against_avg_away awayConcededTier).1 ∧
    (calculate_btts_score (some hs) (some { aw with goals_against_avg_away := v })).1 =
      (factorEval hs.goals_for_avg_home homeGoalsTier).1 +
      (factorEval aw.goals_for_avg_away awayGoalsTier).1 +
      (factorEval hs.goals_against_avg_home homeConcededTier).1 := by
  have hbad : ∀ t : ℚ → ℕ, t 0 = 0 → (factorEval v t).1 = 0 := by
    intro t ht
    rcases hv with rfl | rfl | rfl <;> simp [factorEval, parseField, ht]
  have h1 : homeGoalsTier 0 = 0 := by norm_num [homeGoalsTier]
  have h2 : awayGoalsTier 0 = 0 := by norm_num [awayGoalsTier]
  have h3 : homeConcededTier 0 = 0 := by norm_num [homeConcededTier]
  have h4 : awayConcededTier 0 = 0 := by norm_num [awayConcededTier]
  refine ⟨rfl, ?_, ?_, ?_, ?_⟩
  · simp [calculate_btts_score, hbad homeGoalsTier h1]
  · simp [calculate_btts_score, hbad awayGoalsTier h2]
  · simp [calculate_btts_score, hbad homeConcededTier h3]
  · simp [calculate_btts_score, hbad awayConcededTier h4]

/-- Witness for C8: a malformed home-scoring field zeroes that factor and
the other three factors of fullStats still sum to 75. -/
theorem factor_fault_tolerance_witness :
    (FieldVal.malformed = FieldVal.missing ∨ FieldVal.malformed = FieldVal.nullVal ∨
      FieldVal.malformed = FieldVal.malformed) ∧
    (calculate_btts_score (some { fullStats with goals_for_avg_home := .malformed })
        (some fullStats)).1 = 75 := by
  refine ⟨Or.inr (Or.inr rfl), ?_⟩
  have h := (factor_fault_tolerance fullStats fullStats .malformed
    (Or.inr (Or.inr rfl))).2.1
  rw [h]
  norm_num [factorEval, parseField, fullStats, awayGoalsTier, homeConcededTier,
    awayConcededTier]

/-- Claim C9: a run with zero candidate fixtures (including upstream
failure, which get_today_fixtures maps to the empty list) or zero
qualifying fixtures hands the notification sink a distinct, explicit
message rather than an empty payload; mainMessage is total, so these are
ordinary return paths of main, not errors. -/
theorem no_picks_messages :
    mainMessage [] = no_fixtures_msg ∧
    (∀ fixtures : List Fixture, fixtures ≠ [] → analyze_matches fixtures = [] →
      mainMessage fixtures = no_qualifiers_msg) ∧
    no_fixtures_msg ≠ "" ∧ no_qualifiers_msg ≠ "" ∧
    no_fixtures_msg ≠ no_qualifiers_msg := by
  refine ⟨rfl, ?_, by decide, by decide, by decide⟩
  intro fixtures hne hempty
  have hlen : ¬ (fixtures.length = 0) := by
    simpa [List.length_eq_zero] using hne
  simp [mainMessage, hlen, hempty]

/-- Witness for C9: a nonempty fixture list with no qualifying match
produces the explicit no-qualifiers message. -/
theorem no_picks_messages_witness :
    ([emptyFixture] ≠ ([] : List Fixture)) ∧
    analyze_matches [emptyFixture] = [] ∧
    mainMessage [emptyFixture] = no_qualifiers_msg :=
  ⟨by decide, by decide,
    no_picks_messages.2.1 [emptyFixture] (by decide) (by decide)⟩

/-- Claim C10: if either the home statistics or the away statistics
object is absent — not only when both are — calculate_btts_score returns
score 0 with all four breakdown averages still at their initial "N/A"
value, even when the other side's statistics are fully present. -/
theorem absent_side_zeroes_everything (s : Option TeamStats) :
    calculate_btts_score none s = (0, ⟨none, none, none, none⟩) ∧
    calculate_btts_score s none = (0, ⟨none, none, none, none⟩) := by
  cases s <;> exact ⟨rfl, rfl⟩
